import Mathlib

/-!
Shallow embedding of the LiteAds ad-decision pipeline, translated from
`src/liteads/ad_server/services/event_service.py`,
`src/liteads/ad_server/routers/event.py` and
`src/liteads/rec_engine/retrieval/targeting.py`.

Monetary amounts (Python `Decimal`) are modelled as `Rat`; machine strings as
`String` / `List Char`; redis counters as total functions from keys to `Nat`.
-/

namespace LiteAds

/-! ## Python string helpers (ASCII fragment) -/

/-- Model of Python `str.lower` on one character, restricted to ASCII. -/
def pyLowerChar (c : Char) : Char :=
  if 'A' ≤ c ∧ c ≤ 'Z' then Char.ofNat (c.toNat + 32) else c

/-- Model of Python `str.upper` on one character, restricted to ASCII. -/
def pyUpperChar (c : Char) : Char :=
  if 'a' ≤ c ∧ c ≤ 'z' then Char.ofNat (c.toNat - 32) else c

/-- Model of Python `str.lower`, restricted to ASCII. -/
def pyLower (s : String) : String := ⟨s.data.map pyLowerChar⟩

/-- Model of Python `str.upper`, restricted to ASCII. -/
def pyUpper (s : String) : String := ⟨s.data.map pyUpperChar⟩

/-- Model of Python `str.strip()` (whitespace trim at both ends). -/
def pyStrip (s : List Char) : List Char :=
  ((s.dropWhile Char.isWhitespace).reverse.dropWhile Char.isWhitespace).reverse

/-- Model of Python `s.split(sep)` for a one-character separator: always
returns a non-empty list of (possibly empty) fragments. -/
def splitOnSep (sep : Char) : List Char → List (List Char)
  | [] => [[]]
  | c :: cs =>
    if c = sep then [] :: splitOnSep sep cs
    else
      match splitOnSep sep cs with
      | [] => [[c]]
      | p :: ps => (c :: p) :: ps

/-- Value of a digit string, most significant digit first. -/
def digitsVal (s : List Char) : Nat :=
  s.foldl (fun a c => a * 10 + (c.toNat - 48)) 0

/-- Digit-string parser: `some` exactly on non-empty all-digit strings. -/
def digitsOpt (s : List Char) : Option Nat :=
  if s ≠ [] ∧ s.all Char.isDigit then some (digitsVal s) else none

/-- Model of Python `int(s)` restricted to an optional sign followed by ASCII
digits (surrounding whitespace and unicode digits are not modelled). -/
def pyInt (s : List Char) : Option Int :=
  match s with
  | [] => none
  | c :: rest =>
    if c = '-' then (digitsOpt rest).map (fun n => -(n : Int))
    else if c = '+' then (digitsOpt rest).map (fun n => (n : Int))
    else (digitsOpt s).map (fun n => (n : Int))

/-- Python truthiness of an optional string (`None` and `""` are falsy). -/
def pyTruthyStr (s : Option String) : Bool :=
  match s with
  | none => false
  | some x => x ≠ ""

/-! ## Enumerations (from liteads/models/base.py via their use sites) -/

/-- Campaign/creative status. -/
inductive Status where
  | DRAFT | ACTIVE | PAUSED | ENDED
deriving DecidableEq, Repr

/-- Campaign bid type (CPM=1, CPC=2, CPA=3, OCPM=4 in the source). -/
inductive BidType where
  | CPM | CPC | CPA | OCPM
deriving DecidableEq, Repr

/-- Ad event type. -/
inductive EventType where
  | IMPRESSION | CLICK | CONVERSION
deriving DecidableEq, Repr

/-! ## Event/Cost Ledger (event_service.py) -/

/-- Campaign fields read and written by `EventService`. -/
structure Campaign where
  id : Int
  bid_type : BidType
  bid_amount : Rat
  spent_today : Option Rat
  spent_total : Option Rat
  is_house_ad : Bool
deriving DecidableEq, Repr

/-- Persisted ad event (`AdEvent` row created by `track_event`). -/
structure AdEvent where
  request_id : String
  campaign_id : Option Int
  creative_id : Option Int
  event_type : EventType
  event_time : Nat
  user_id : Option String
  cost : Rat
deriving DecidableEq, Repr

/-- State touched by event tracking: the campaign table, the append-only event
table, and the redis counters (hourly stats, daily/hourly frequency). -/
structure LedgerState where
  campaigns : List Campaign
  events : List AdEvent
  statHourly : Nat → Int → EventType → Nat
  freqDaily : String → Int → Nat → Nat
  freqHourly : String → Int → Nat → Nat

/-- `EventService._parse_ad_id`: split on `_`; `["ad", c, r, ...]` is the
legacy encoding, two or more parts the new encoding, a single part a bare
campaign id; any `int()` failure yields `(None, None)`. -/
def parseAdId (adId : List Char) : Option Int × Option Int :=
  match splitOnSep '_' adId with
  | p0 :: p1 :: p2 :: _ =>
    if p0 = ['a', 'd'] then
      match pyInt p1, pyInt p2 with
      | some x, some y => (some x, some y)
      | _, _ => (none, none)
    else
      match pyInt p0, pyInt p1 with
      | some x, some y => (some x, some y)
      | _, _ => (none, none)
  | [p0, p1] =>
    match pyInt p0, pyInt p1 with
    | some x, some y => (some x, some y)
    | _, _ => (none, none)
  | _ =>
    match pyInt adId with
    | some x => (some x, none)
    | none => (none, none)

/-- `EventService._get_event_type`: case-insensitive alias table. -/
def getEventType (s : List Char) : Option EventType :=
  let l := s.map pyLowerChar
  if l = "impression".data ∨ l = "imp".data ∨ l = "v".data then
    some EventType.IMPRESSION
  else if l = "click".data ∨ l = "clk".data ∨ l = "c".data then
    some EventType.CLICK
  else if l = "conversion".data ∨ l = "conv".data ∨ l = "x".data then
    some EventType.CONVERSION
  else none

/-- Cost table from `_calculate_cost`'s bid-type/event-type branch. -/
def costFromBid (bt : BidType) (et : EventType) (bid : Rat) : Rat :=
  if bt = BidType.CPM ∨ bt = BidType.OCPM then
    if et = EventType.IMPRESSION then bid / 1000 else 0
  else if bt = BidType.CPC then
    if et = EventType.CLICK then bid else 0
  else if bt = BidType.CPA then
    if et = EventType.CONVERSION then bid else 0
  else 0

/-- Python `campaign.spent_... or Decimal("0")` (both `None` and `0` give 0). -/
def pyOrZero (o : Option Rat) : Rat := o.getD 0

/-- Spend update performed by `_calculate_cost` when `cost > 0`. -/
def applySpend (c : Campaign) (cost : Rat) : Campaign :=
  { c with
    spent_today := some (pyOrZero c.spent_today + cost)
    spent_total := some (pyOrZero c.spent_total + cost) }

/-- `EventService._calculate_cost`: returns the event cost and the campaign
table after the spend update (the ORM mutates the single row fetched by id;
modelled as a map over the matching id). -/
def calculateCost (campaigns : List Campaign) (et : EventType)
    (cidO : Option Int) : Rat × List Campaign :=
  match cidO with
  | none => (0, campaigns)
  | some cid =>
    match campaigns.find? (fun c => c.id == cid) with
    | none => (0, campaigns)
    | some camp =>
      if camp.is_house_ad then (0, campaigns)
      else
        let cost := costFromBid camp.bid_type et camp.bid_amount
        if 0 < cost then
          (cost, campaigns.map (fun c => if c.id == cid then applySpend c cost else c))
        else (cost, campaigns)

/-- `EventService._update_stats`: hourly per-campaign counter bump. -/
def updateStats (st : LedgerState) (cidO : Option Int) (et : EventType)
    (hour : Nat) : LedgerState :=
  match cidO with
  | none => st
  | some cid =>
    { st with
      statHourly := fun h c e =>
        if h = hour ∧ c = cid ∧ e = et then st.statHourly h c e + 1
        else st.statHourly h c e }

/-- `EventService._update_frequency`: daily and hourly per-(user, campaign)
frequency counter bumps. -/
def updateFrequency (st : LedgerState) (uid : String) (cidO : Option Int)
    (date hour : Nat) : LedgerState :=
  match cidO with
  | none => st
  | some cid =>
    { st with
      freqDaily := fun u c d =>
        if u = uid ∧ c = cid ∧ d = date then st.freqDaily u c d + 1
        else st.freqDaily u c d
      freqHourly := fun u c h =>
        if u = uid ∧ c = cid ∧ h = hour then st.freqHourly u c h + 1
        else st.freqHourly u c h }

/-- Python `datetime.fromtimestamp(timestamp) if timestamp else now` (a zero
timestamp is falsy). -/
def eventTime (ts : Option Nat) (now : Nat) : Nat :=
  match ts with
  | some t => if t ≠ 0 then t else now
  | none => now

/-- Modelled from the spec: success of the `AdEvent` insert (`session.flush`).
The `AdEvent` table lives in `liteads/models/ad.py`, which is absent from
`src/`; per spec section 7, an unparseable ad_id must yield a boolean failure,
and the sibling model in `src/liteads/models/event.py` declares `campaign_id`
and `creative_id` NOT NULL, so the insert is modelled to fail exactly when
either id is missing. -/
def persistOk (ev : AdEvent) : Bool :=
  ev.campaign_id.isSome && ev.creative_id.isSome

/-- `EventService.track_event`. On any exception (modelled: the failed flush of
an event missing an id) the surrounding transaction is rolled back and `False`
is returned, leaving the state unchanged. -/
def trackEvent (st : LedgerState) (request_id ad_id event_type : String)
    (user_id : Option String) (ts : Option Nat) (now date hour : Nat) :
    Bool × LedgerState :=
  let ids := parseAdId ad_id.data
  match getEventType event_type.data with
  | none => (false, st)
  | some et =>
    let cc := calculateCost st.campaigns et ids.1
    let ev : AdEvent :=
      { request_id := request_id
        campaign_id := ids.1
        creative_id := ids.2
        event_type := et
        event_time := eventTime ts now
        user_id := user_id
        cost := cc.1 }
    if persistOk ev then
      let st1 := { st with campaigns := cc.2, events := st.events ++ [ev] }
      let st2 := updateStats st1 ids.1 et hour
      if et = EventType.IMPRESSION ∧ pyTruthyStr user_id then
        (true, updateFrequency st2 (user_id.getD "") ids.1 date hour)
      else (true, st2)
    else (false, st)

/-- `track_event_get` (routers/event.py): the GET pixel-tracking endpoint
always submits `user_id=None` and `timestamp=current_timestamp()`. -/
def trackEventGet (st : LedgerState) (t r i : String) (now date hour : Nat) :
    Bool × LedgerState :=
  trackEvent st r i t none (some now) now date hour

/-! ## Candidate retrieval (rec_engine/retrieval/targeting.py) -/

/-- Per-request user snapshot (`UserContext`). -/
structure UserContext where
  age : Option Int := none
  gender : Option String := none
  country : Option String := none
  city : Option String := none
  device_model : Option String := none
  os : Option String := none
  interests : List String := []
  app_categories : List String := []
  page_url : Option String := none
deriving DecidableEq, Repr

/-- Structured `rule_value` parameters; a key absent from the stored dict is
`none` / `[]`. -/
structure RuleValue where
  min : Option Int := none
  max : Option Int := none
  values : List String := []
  countries : List String := []
  cities : List String := []
  types : List String := []
deriving DecidableEq, Repr

/-- Targeting rule as denormalized into the campaign snapshot. -/
structure RuleData where
  rule_type : String
  rule_value : RuleValue
  is_include : Bool
deriving DecidableEq, Repr

/-- Page targeting glob pattern sets (`page_targeting` JSON object). -/
structure PageTargeting where
  includePatterns : List String := []
  excludePatterns : List String := []
deriving DecidableEq, Repr

/-- Creative as denormalized into the campaign snapshot. -/
structure CreativeData where
  id : Int
  title : Option String := none
  description : Option String := none
  image_url : Option String := none
  video_url : Option String := none
  landing_url : Option String := none
  creative_type : Nat := 1
  width : Option Int := none
  height : Option Int := none
deriving DecidableEq, Repr

/-- Campaign snapshot entry built by `_get_active_campaigns`. -/
structure CampaignData where
  id : Int
  advertiser_id : Int
  name : String := ""
  bid_type : BidType
  bid_amount : Rat
  priority_boost : Rat := 1
  budget_daily : Option Rat := none
  budget_total : Option Rat := none
  spent_today : Rat := 0
  spent_total : Rat := 0
  freq_cap_daily : Option Int := none
  freq_cap_hourly : Option Int := none
  is_house_ad : Bool := false
  page_targeting : Option PageTargeting := none
  target_domains : Option (List String) := none
  creatives : List CreativeData := []
  targeting_rules : List RuleData := []
deriving DecidableEq, Repr

/-- Retrieval output (`AdCandidate`). -/
structure AdCandidate where
  campaign_id : Int
  creative_id : Int
  advertiser_id : Int
  bid : Rat
  bid_type : BidType
  priority_boost : Rat
  title : Option String
  description : Option String
  image_url : Option String
  video_url : Option String
  landing_url : Option String
  creative_type : Nat
  width : Option Int
  height : Option Int
  is_house_ad : Bool
deriving DecidableEq, Repr

/-- Model of Python's `needle in haystack` substring test. -/
def containsSub (needle : List Char) : List Char → Bool
  | [] => needle.isEmpty
  | c :: rest => needle.isPrefixOf (c :: rest) || containsSub needle rest

/-- `TargetingRetrieval._match_rule`: evaluate one targeting rule against the
user context (fail-open on unknown rule types and missing signals). -/
def matchRule (rule_type : String) (rv : RuleValue) (u : UserContext) : Bool :=
  if rule_type = "age" then
    match u.age with
    | none => true
    | some a => decide (rv.min.getD 0 ≤ a ∧ a ≤ rv.max.getD 999)
  else if rule_type = "gender" then
    match u.gender with
    | none => true
    | some g => (rv.values.map pyLower).contains (pyLower g)
  else if rule_type = "geo" then
    (match u.country with
     | none => true
     | some co =>
       if rv.countries ≠ [] then (rv.countries.map pyUpper).contains (pyUpper co)
       else true) &&
    (match u.city with
     | none => true
     | some ci =>
       if rv.cities ≠ [] then (rv.cities.map pyLower).contains (pyLower ci)
       else true)
  else if rule_type = "device" then
    match u.device_model with
    | none => true
    | some m =>
      let ml := pyLower m
      let dtype : String :=
        if containsSub "tablet".data ml.data || containsSub "pad".data ml.data
        then "tablet" else "phone"
      if rv.types ≠ [] then rv.types.contains dtype else true
  else if rule_type = "os" then
    match u.os with
    | none => true
    | some o =>
      if rv.values ≠ [] then (rv.values.map pyLower).contains (pyLower o)
      else true
  else if rule_type = "interest" then
    if rv.values ≠ [] ∧ u.interests ≠ [] then
      (rv.values.map pyLower).any (fun i => (u.interests.map pyLower).contains i)
    else true
  else if rule_type = "app_category" then
    if rv.values ≠ [] ∧ u.app_categories ≠ [] then
      (rv.values.map pyLower).any (fun c => (u.app_categories.map pyLower).contains c)
    else true
  else true

/-- `TargetingRetrieval._match_targeting`: AND over all rules; an include rule
must match, an exclude rule must not. -/
def matchTargeting (cd : CampaignData) (u : UserContext) : Bool :=
  if cd.targeting_rules = [] then true
  else cd.targeting_rules.all (fun r =>
    let m := matchRule r.rule_type r.rule_value u
    if r.is_include then m else !m)

/-- Model of `fnmatch.fnmatch` for patterns built from literals, `*` and `?`
(bracket classes are not modelled; POSIX case behaviour, i.e. no folding). -/
def globMatch : List Char → List Char → Bool
  | [], [] => true
  | [], _ :: _ => false
  | '*' :: ps, s =>
    globMatch ps s ||
      (match s with
       | [] => false
       | _ :: s2 => globMatch ('*' :: ps) s2)
  | p :: ps, s =>
    match s with
    | [] => false
    | c :: s2 => (p = '?' || p = c) && globMatch ps s2
termination_by p s => p.length + s.length

/-- `TargetingRetrieval._match_page_targeting`: exclude globs reject first;
then, if include globs exist, at least one must match. -/
def matchPageTargeting (cd : CampaignData) (pageUrl : Option String) : Bool :=
  match cd.page_targeting with
  | none => true
  | some pt =>
    match pageUrl with
    | none => true
    | some purl =>
      if purl = "" then true
      else if pt.excludePatterns.any (fun p => globMatch p.data purl.data) then
        false
      else if pt.includePatterns ≠ [] then
        pt.includePatterns.any (fun p => globMatch p.data purl.data)
      else true

/-- Model of `urlparse(url).netloc` restricted to: an optional `scheme:`
(letter head, then letters/digits/`+`/`-`/`.`) followed by `//`, with the
netloc running to the next `/`, `?` or `#`; otherwise empty. -/
def netlocOf (url : List Char) : List Char :=
  let rest :=
    match url with
    | c :: tl =>
      if c.isAlpha then
        let pre := tl.takeWhile (fun d => d.isAlphanum ∨ d = '+' ∨ d = '-' ∨ d = '.')
        match tl.drop pre.length with
        | ':' :: r => r
        | _ => url
      else url
    | [] => []
  match rest with
  | '/' :: '/' :: r => r.takeWhile (fun c => c ≠ '/' ∧ c ≠ '?' ∧ c ≠ '#')
  | _ => []

/-- `TargetingRetrieval._extract_domain`: lowercase the host, strip a leading
`www.`, keep the last two dot-separated labels. -/
def extractDomain (url : List Char) : Option (List Char) :=
  if url = [] then none
  else
    let host := (netlocOf url).map pyLowerChar
    let host := if ['w', 'w', 'w', '.'].isPrefixOf host then host.drop 4 else host
    let parts := splitOnSep '.' host
    if 2 ≤ parts.length then
      some (List.intercalate ['.'] (parts.drop (parts.length - 2)))
    else some host

/-- Target-domain entry normalization inside `_match_domain_targeting`:
`target.lower().strip()`, then strip a leading `www.`. -/
def normTarget (t : List Char) : List Char :=
  let tc := pyStrip (t.map pyLowerChar)
  if ['w', 'w', 'w', '.'].isPrefixOf tc then tc.drop 4 else tc

/-- `TargetingRetrieval._match_domain_targeting` (the JSON-string input form is
not modelled; the snapshot holds the decoded list). -/
def matchDomainTargeting (targets : Option (List String))
    (pageUrl : Option String) : Bool :=
  if (targets.getD []).isEmpty then true
  else
    match pageUrl with
    | none => true
    | some u =>
      if u = "" then true
      else
        match extractDomain u.data with
        | none => true
        | some d =>
          if d.isEmpty then true
          else (targets.getD []).any (fun t =>
            let tc := normTarget t.data
            (d == tc) || (('.' :: tc).isSuffixOf d))

/-- `TargetingRetrieval._parse_slot_dimensions`: first `(\d+)x(\d+)` match in
the slot id. -/
def parseSlotDimensions : List Char → Option (Nat × Nat)
  | [] => none
  | c :: rest =>
    if c.isDigit then
      let d1 := (c :: rest).takeWhile Char.isDigit
      match (c :: rest).drop d1.length with
      | 'x' :: r2 =>
        let d2 := r2.takeWhile Char.isDigit
        if d2 ≠ [] then some (digitsVal d1, digitsVal d2)
        else parseSlotDimensions rest
      | _ => parseSlotDimensions rest
    else parseSlotDimensions rest

/-- `TargetingRetrieval._creative_matches_slot`. -/
def creativeMatchesSlot (cr : CreativeData) (dims : Option (Nat × Nat)) : Bool :=
  match dims with
  | none => true
  | some (w, h) =>
    match cr.width, cr.height with
    | some cw, some ch => cw == (w : Int) && ch == (h : Int)
    | _, _ => true

/-- Candidate construction in `retrieve`'s inner loop. -/
def mkCandidate (cd : CampaignData) (cr : CreativeData) : AdCandidate :=
  { campaign_id := cd.id
    creative_id := cr.id
    advertiser_id := cd.advertiser_id
    bid := cd.bid_amount
    bid_type := cd.bid_type
    priority_boost := cd.priority_boost
    title := cr.title
    description := cr.description
    image_url := cr.image_url
    video_url := cr.video_url
    landing_url := cr.landing_url
    creative_type := cr.creative_type
    width := cr.width
    height := cr.height
    is_house_ad := cd.is_house_ad }

/-- Inner loop of `retrieve` over one campaign's creatives, with the
`len(paid) >= limit and len(house) >= limit` break. -/
def creativeLoop (cd : CampaignData) (dims : Option (Nat × Nat)) (limit : Nat) :
    List CreativeData → List AdCandidate → List AdCandidate →
    List AdCandidate × List AdCandidate
  | [], paid, house => (paid, house)
  | cr :: rest, paid, house =>
    if creativeMatchesSlot cr dims then
      let cand := mkCandidate cd cr
      let pr := if cd.is_house_ad then (paid, house ++ [cand])
                else (paid ++ [cand], house)
      if limit ≤ pr.1.length ∧ limit ≤ pr.2.length then pr
      else creativeLoop cd dims limit rest pr.1 pr.2
    else creativeLoop cd dims limit rest paid house

/-- Campaign filter applied in `retrieve`'s outer loop (targeting rules, page
targeting, domain targeting, in source order). -/
def campaignPasses (cd : CampaignData) (u : UserContext)
    (pageUrl : Option String) : Bool :=
  matchTargeting cd u && matchPageTargeting cd pageUrl &&
    matchDomainTargeting cd.target_domains pageUrl

/-- Outer loop of `retrieve` over the cached campaigns, with the same
double-`limit` break as the source. -/
def campaignLoop (u : UserContext) (pageUrl : Option String)
    (dims : Option (Nat × Nat)) (limit : Nat) :
    List CampaignData → List AdCandidate → List AdCandidate →
    List AdCandidate × List AdCandidate
  | [], paid, house => (paid, house)
  | cd :: rest, paid, house =>
    if campaignPasses cd u pageUrl then
      let pr := creativeLoop cd dims limit cd.creatives paid house
      if limit ≤ pr.1.length ∧ limit ≤ pr.2.length then pr
      else campaignLoop u pageUrl dims limit rest pr.1 pr.2
    else campaignLoop u pageUrl dims limit rest paid house

/-- Page URL resolution in `retrieve`: the `page_url` kwarg if truthy,
otherwise the user context's `page_url`. -/
def effectivePageUrl (kw : Option String) (u : UserContext) : Option String :=
  if pyTruthyStr kw then kw else u.page_url

/-- Paid/house buckets accumulated by `retrieve`'s loops, from empty
accumulators. -/
def bucketsOf (campaigns : List CampaignData) (u : UserContext)
    (slot_id : String) (limit : Nat) (kw : Option String) :
    List AdCandidate × List AdCandidate :=
  campaignLoop u (effectivePageUrl kw u) (parseSlotDimensions slot_id.data)
    limit campaigns [] []

/-- `TargetingRetrieval.retrieve`: paid candidates if any, else house ads as
fallback, truncated at `limit`. -/
def retrieve (campaigns : List CampaignData) (u : UserContext)
    (slot_id : String) (limit : Nat) (kw : Option String) : List AdCandidate :=
  if campaigns = [] then []
  else
    let pr := bucketsOf campaigns u slot_id limit kw
    if pr.1 ≠ [] then pr.1.take limit
    else if pr.2 ≠ [] then pr.2.take limit
    else []

/-! ## Campaign cache rebuild (`_get_active_campaigns`) -/

/-- Creative row as stored in the system of record. -/
structure DbCreative where
  id : Int
  title : Option String := none
  description : Option String := none
  image_url : Option String := none
  video_url : Option String := none
  landing_url : Option String := none
  creative_type : Nat := 1
  width : Option Int := none
  height : Option Int := none
  status : Status
deriving DecidableEq, Repr

/-- Campaign row as stored in the system of record, with its creatives and
targeting rules. -/
structure DbCampaign where
  id : Int
  advertiser_id : Int
  name : String := ""
  status : Status
  bid_type : BidType
  bid_amount : Rat
  priority_boost : Option Rat := none
  budget_daily : Option Rat := none
  budget_total : Option Rat := none
  spent_today : Rat := 0
  spent_total : Rat := 0
  freq_cap_daily : Option Int := none
  freq_cap_hourly : Option Int := none
  is_house_ad : Bool := false
  page_targeting : Option PageTargeting := none
  target_domains : Option (List String) := none
  creatives : List DbCreative := []
  targeting_rules : List RuleData := []
deriving DecidableEq, Repr

/-- Modelled from the spec: `Campaign.is_active` is a property of the ORM model
in `liteads/models/ad.py`, which is absent from `src/`; per spec section 4.2
the snapshot includes only ACTIVE campaigns, so it is modelled as a status
check. -/
def DbCampaign.is_active (c : DbCampaign) : Bool :=
  c.status == Status.ACTIVE

/-- Creative denormalization in `_get_active_campaigns`. -/
def toCreativeData (cr : DbCreative) : CreativeData :=
  { id := cr.id
    title := cr.title
    description := cr.description
    image_url := cr.image_url
    video_url := cr.video_url
    landing_url := cr.landing_url
    creative_type := cr.creative_type
    width := cr.width
    height := cr.height }

/-- Campaign denormalization in `_get_active_campaigns` (Python truthiness:
a `None` or zero `priority_boost` becomes 1.0, a `None` or zero budget becomes
`None`; only ACTIVE creatives are kept). -/
def toCampaignData (c : DbCampaign) : CampaignData :=
  { id := c.id
    advertiser_id := c.advertiser_id
    name := c.name
    bid_type := c.bid_type
    bid_amount := c.bid_amount
    priority_boost :=
      match c.priority_boost with
      | none => 1
      | some x => if x = 0 then 1 else x
    budget_daily :=
      match c.budget_daily with
      | none => none
      | some x => if x = 0 then none else some x
    budget_total :=
      match c.budget_total with
      | none => none
      | some x => if x = 0 then none else some x
    spent_today := c.spent_today
    spent_total := c.spent_total
    freq_cap_daily := c.freq_cap_daily
    freq_cap_hourly := c.freq_cap_hourly
    is_house_ad := c.is_house_ad
    page_targeting := c.page_targeting
    target_domains := c.target_domains
    creatives := (c.creatives.filter (fun cr => cr.status == Status.ACTIVE)).map toCreativeData
    targeting_rules := c.targeting_rules }

/-- Snapshot rebuild on cache miss: query ACTIVE campaigns capped at 1000,
skip inactive rows, keep only campaigns with at least one ACTIVE creative. -/
def buildSnapshot (db : List DbCampaign) : List CampaignData :=
  (((db.filter (fun c => c.status == Status.ACTIVE)).take 1000).filter
      (fun c => c.is_active)).filterMap
    (fun c =>
      let cd := toCampaignData c
      if cd.creatives ≠ [] then some cd else none)

/-- `self._cache_ttl` (set to 300 seconds in `__init__`). -/
def cacheTtl : Nat := 300

/-- `TargetingRetrieval._get_active_campaigns`: on a hit return the cached
snapshot; on a miss rebuild and cache the snapshot (with TTL) only when it is
non-empty. The second component records the cache write, if any. -/
def getActiveCampaigns (cached : Option (List CampaignData))
    (db : List DbCampaign) :
    List CampaignData × Option (List CampaignData × Nat) :=
  match cached with
  | some snap => (snap, none)
  | none =>
    let snap := buildSnapshot db
    if snap ≠ [] then (snap, some (snap, cacheTtl)) else (snap, none)

/-! ## Helper lemmas -/

theorem updateStats_campaigns (st : LedgerState) (o : Option Int)
    (e : EventType) (h : Nat) : (updateStats st o e h).campaigns = st.campaigns := by
  cases o <;> rfl

theorem updateStats_events (st : LedgerState) (o : Option Int)
    (e : EventType) (h : Nat) : (updateStats st o e h).events = st.events := by
  cases o <;> rfl

theorem updateStats_freqDaily (st : LedgerState) (o : Option Int)
    (e : EventType) (h : Nat) : (updateStats st o e h).freqDaily = st.freqDaily := by
  cases o <;> rfl

theorem updateStats_freqHourly (st : LedgerState) (o : Option Int)
    (e : EventType) (h : Nat) : (updateStats st o e h).freqHourly = st.freqHourly := by
  cases o <;> rfl

theorem updateFrequency_campaigns (st : LedgerState) (uid : String)
    (o : Option Int) (d h : Nat) :
    (updateFrequency st uid o d h).campaigns = st.campaigns := by
  cases o <;> rfl

theorem updateFrequency_events (st : LedgerState) (uid : String)
    (o : Option Int) (d h : Nat) :
    (updateFrequency st uid o d h).events = st.events := by
  cases o <;> rfl

/-! ## Claim theorems -/

/-- Claim C1: cost computation is a pure function of (bid_type, event_type,
bid_amount): for an existing non-house campaign, CPM or OCPM with an
impression yields bid_amount/1000, CPC with a click yields bid_amount, CPA
with a conversion yields bid_amount, every other pair yields 0; a house-ad
campaign and an absent campaign always yield 0. -/
theorem C1_cost_pure (campaigns : List Campaign) (et : EventType) (cid : Int) :
    (calculateCost campaigns et none).1 = 0
    ∧ (campaigns.find? (fun c => c.id == cid) = none →
        (calculateCost campaigns et (some cid)).1 = 0)
    ∧ (∀ camp, campaigns.find? (fun c => c.id == cid) = some camp →
        camp.is_house_ad = true → (calculateCost campaigns et (some cid)).1 = 0)
    ∧ (∀ camp, campaigns.find? (fun c => c.id == cid) = some camp →
        camp.is_house_ad = false →
        (calculateCost campaigns et (some cid)).1 =
          if (camp.bid_type = BidType.CPM ∨ camp.bid_type = BidType.OCPM)
              ∧ et = EventType.IMPRESSION then camp.bid_amount / 1000
          else if camp.bid_type = BidType.CPC ∧ et = EventType.CLICK then
            camp.bid_amount
          else if camp.bid_type = BidType.CPA ∧ et = EventType.CONVERSION then
            camp.bid_amount
          else 0) := by
  refine ⟨rfl, ?_, ?_, ?_⟩
  · intro h
    simp [calculateCost, h]
  · intro camp h hh
    simp [calculateCost, h, hh]
  · intro camp h hh
    simp only [calculateCost, h, hh, Bool.false_eq_true, if_false]
    have hcost : (if 0 < costFromBid camp.bid_type et camp.bid_amount then
        (costFromBid camp.bid_type et camp.bid_amount,
          campaigns.map (fun c => if c.id == cid then
            applySpend c (costFromBid camp.bid_type et camp.bid_amount) else c))
        else (costFromBid camp.bid_type et camp.bid_amount, campaigns)).1 =
        costFromBid camp.bid_type et camp.bid_amount := by
      split <;> rfl
    rw [hcost]
    cases hbt : camp.bid_type <;> cases et <;> simp [costFromBid]

/-- Concrete campaign used by several witnesses: id 5, CPM, bid 2, not a
house ad, no spend recorded yet. -/
def camp1 : Campaign :=
  { id := 5, bid_type := BidType.CPM, bid_amount := 2,
    spent_today := none, spent_total := none, is_house_ad := false }

/-- Witness for C1 at a concrete campaign table. -/
theorem C1_cost_pure_witness :
    (calculateCost [camp1] EventType.IMPRESSION (some 5)).1 = 2 / 1000 := by
  have h := (C1_cost_pure [camp1] EventType.IMPRESSION 5).2.2.2 camp1 rfl rfl
  rw [h]
  simp [camp1]

/-- Claim C3: for every ad_id that parses under neither encoding,
`track_event` returns false (and, the exception being caught, the state is
unchanged). -/
theorem C3_bad_adid_fails (st : LedgerState) (rid aid et : String)
    (uid : Option String) (ts : Option Nat) (now date hour : Nat)
    (h : parseAdId aid.data = (none, none)) :
    trackEvent st rid aid et uid ts now date hour = (false, st) := by
  cases hg : getEventType et.data with
  | none => simp [trackEvent, hg]
  | some e => simp [trackEvent, hg, h, persistOk]

/-- Ledger state used by witnesses: one CPM campaign, no events, all counters
zero. -/
def st0 : LedgerState :=
  { campaigns := [camp1], events := [],
    statHourly := fun _ _ _ => 0,
    freqDaily := fun _ _ _ => 0,
    freqHourly := fun _ _ _ => 0 }

/-- Witness for C3 at the non-numeric ad_id "foo". -/
theorem C3_bad_adid_fails_witness :
    trackEvent st0 "r" "foo" "v" none none 0 0 0 = (false, st0) :=
  C3_bad_adid_fails st0 "r" "foo" "v" none none 0 0 0 (by decide)

/-- Claim C5: an event_type string outside the case-insensitive aliases
(impression/imp/v, click/clk/c, conversion/conv/x) makes `track_event` return
false with no state mutation; each alias maps to its event type. -/
theorem C5_event_type_aliases (st : LedgerState) (rid aid et : String)
    (uid : Option String) (ts : Option Nat) (now date hour : Nat) :
    (getEventType et.data = none →
      trackEvent st rid aid et uid ts now date hour = (false, st))
    ∧ (getEventType et.data = none ↔
        et.data.map pyLowerChar ∉
          (["impression".data, "imp".data, "v".data, "click".data, "clk".data,
            "c".data, "conversion".data, "conv".data, "x".data] :
            List (List Char)))
    ∧ (et.data.map pyLowerChar ∈
        (["impression".data, "imp".data, "v".data] : List (List Char)) →
        getEventType et.data = some EventType.IMPRESSION)
    ∧ (et.data.map pyLowerChar ∈
        (["click".data, "clk".data, "c".data] : List (List Char)) →
        getEventType et.data = some EventType.CLICK)
    ∧ (et.data.map pyLowerChar ∈
        (["conversion".data, "conv".data, "x".data] : List (List Char)) →
        getEventType et.data = some EventType.CONVERSION) := by
  refine ⟨?_, ?_, ?_, ?_, ?_⟩
  · intro h
    simp [trackEvent, h]
  · simp only [getEventType, List.mem_cons, List.not_mem_nil, or_false]
    split_ifs with h1 h2 h3 <;> simp_all <;> tauto
  · intro h
    simp only [List.mem_cons, List.not_mem_nil, or_false] at h
    simp [getEventType, h]
  · intro h
    simp only [List.mem_cons, List.not_mem_nil, or_false] at h
    have hne : ¬(et.data.map pyLowerChar = "impression".data
        ∨ et.data.map pyLowerChar = "imp".data
        ∨ et.data.map pyLowerChar = "v".data) := by
      rcases h with h | h | h <;> rw [h] <;> decide
    simp only [getEventType, hne, if_false]
    rcases h with h | h | h <;> simp [h]
  · intro h
    simp only [List.mem_cons, List.not_mem_nil, or_false] at h
    have hne1 : ¬(et.data.map pyLowerChar = "impression".data
        ∨ et.data.map pyLowerChar = "imp".data
        ∨ et.data.map pyLowerChar = "v".data) := by
      rcases h with h | h | h <;> rw [h] <;> decide
    have hne2 : ¬(et.data.map pyLowerChar = "click".data
        ∨ et.data.map pyLowerChar = "clk".data
        ∨ et.data.map pyLowerChar = "c".data) := by
      rcases h with h | h | h <;> rw [h] <;> decide
    simp only [getEventType, hne1, hne2, if_false]
    rcases h with h | h | h <;> simp [h]

/-- Witness for C5: an unknown event type at a concrete state, and the three
alias families at concrete mixed-case strings. -/
theorem C5_event_type_aliases_witness :
    trackEvent st0 "r" "5_3" "bogus" none none 0 0 0 = (false, st0)
    ∧ getEventType "IMP".data = some EventType.IMPRESSION
    ∧ getEventType "cLk".data = some EventType.CLICK
    ∧ getEventType "X".data = some EventType.CONVERSION := by
  refine ⟨?_, ?_, ?_, ?_⟩
  · exact (C5_event_type_aliases st0 "r" "5_3" "bogus" none none 0 0 0).1
      (by decide)
  · exact (C5_event_type_aliases st0 "r" "5_3" "IMP" none none 0 0 0).2.2.1
      (by decide)
  · exact (C5_event_type_aliases st0 "r" "5_3" "cLk" none none 0 0 0).2.2.2.1
      (by decide)
  · exact (C5_event_type_aliases st0 "r" "5_3" "X" none none 0 0 0).2.2.2.2
      (by decide)

theorem find?_applySpend (l : List Campaign) (cid : Int) (cost : Rat) :
    ∀ c, l.find? (fun x => x.id == cid) = some c →
      (l.map (fun x => if x.id == cid then applySpend x cost else x)).find?
        (fun x => x.id == cid) = some (applySpend c cost) := by
  induction l with
  | nil => intro c h; simp at h
  | cons a as ih =>
    intro c h
    by_cases ha : a.id = cid
    · have hpa : (a.id == cid) = true := by simp [ha]
      rw [@List.find?_cons_of_pos _ (fun x => x.id == cid) a as hpa] at h
      have hac : a = c := Option.some.inj h
      subst hac
      simp only [List.map_cons]
      rw [if_pos hpa]
      exact List.find?_cons_of_pos _ (by simpa [applySpend] using hpa)
    · have hpa : (a.id == cid) = false := by simp [ha]
      simp only [List.find?_cons, hpa] at h
      simp only [List.map_cons, hpa, Bool.false_eq_true, if_false,
        List.find?_cons]
      exact ih c h

theorem calculateCost_snd_find? (campaigns : List Campaign) (et : EventType)
    (cid : Int) (camp : Campaign)
    (hfind : campaigns.find? (fun c => c.id == cid) = some camp) :
    (calculateCost campaigns et (some cid)).2.find? (fun c => c.id == cid) =
      some (if 0 < (calculateCost campaigns et (some cid)).1 then
        applySpend camp ((calculateCost campaigns et (some cid)).1)
        else camp) := by
  simp only [calculateCost, hfind]
  cases hh : camp.is_house_ad with
  | true => simp [hh, hfind]
  | false =>
    simp only [Bool.false_eq_true, if_false]
    by_cases h0 : 0 < costFromBid camp.bid_type et camp.bid_amount
    · simp only [h0, if_true]
      exact find?_applySpend campaigns cid _ camp hfind
    · simp [h0, hfind]

/-- Claim C2: for every event tracked by `track_event`, the owning campaign's
spent_today and spent_total each increase by the computed cost exactly when
that cost is positive (and stay unchanged when it is 0), in the same operation
that appends the persisted event. -/
theorem C2_spend_update (st : LedgerState) (rid aid et : String)
    (uid : Option String) (ts : Option Nat) (now date hour : Nat)
    (cid crid : Int) (e : EventType) (camp : Campaign)
    (hparse : parseAdId aid.data = (some cid, some crid))
    (het : getEventType et.data = some e)
    (hfind : st.campaigns.find? (fun c => c.id == cid) = some camp) :
    (trackEvent st rid aid et uid ts now date hour).1 = true
    ∧ (trackEvent st rid aid et uid ts now date hour).2.events =
        st.events ++ [⟨rid, some cid, some crid, e, eventTime ts now, uid,
          (calculateCost st.campaigns e (some cid)).1⟩]
    ∧ (trackEvent st rid aid et uid ts now date hour).2.campaigns.find?
          (fun c => c.id == cid) =
        some (if 0 < (calculateCost st.campaigns e (some cid)).1 then
          applySpend camp ((calculateCost st.campaigns e (some cid)).1)
          else camp) := by
  refine ⟨?_, ?_, ?_⟩
  · simp only [trackEvent, hparse, het, persistOk, Option.isSome_some,
      Bool.and_self, if_true]
    split <;> rfl
  · simp only [trackEvent, hparse, het, persistOk, Option.isSome_some,
      Bool.and_self, if_true]
    split <;> simp [updateFrequency_events, updateStats_events]
  · simp only [trackEvent, hparse, het, persistOk, Option.isSome_some,
      Bool.and_self, if_true]
    split <;>
      simp [updateFrequency_campaigns, updateStats_campaigns,
        calculateCost_snd_find? st.campaigns e cid camp hfind]

/-- Witness for C2: a CPM impression on the concrete ledger adds 0.002 to both
spend fields of campaign 5 and succeeds. -/
theorem C2_spend_update_witness :
    (trackEvent st0 "r" "5_3" "v" (some "u") none 7 1 2).1 = true
    ∧ (trackEvent st0 "r" "5_3" "v" (some "u") none 7 1 2).2.campaigns.find?
        (fun c => c.id == 5) =
      some { camp1 with spent_today := some (2 / 1000),
                        spent_total := some (2 / 1000) } := by
  have h := C2_spend_update st0 "r" "5_3" "v" (some "u") none 7 1 2 5 3
    EventType.IMPRESSION camp1 (by decide) (by decide) rfl
  refine ⟨h.1, ?_⟩
  rw [h.2.2]
  norm_num [st0, calculateCost, camp1, costFromBid, applySpend, pyOrZero]

theorem splitOnSep_no_sep (sep : Char) (s : List Char)
    (h : ∀ c ∈ s, c ≠ sep) : splitOnSep sep s = [s] := by
  induction s with
  | nil => rfl
  | cons c cs ih =>
    have hc : c ≠ sep := h c (List.mem_cons_self c cs)
    have ih2 := ih (fun x hx => h x (List.mem_cons_of_mem c hx))
    simp [splitOnSep, hc, ih2]

theorem splitOnSep_append (sep : Char) (s t : List Char)
    (h : ∀ c ∈ s, c ≠ sep) :
    splitOnSep sep (s ++ sep :: t) = s :: splitOnSep sep t := by
  induction s with
  | nil => simp [splitOnSep]
  | cons c cs ih =>
    have hc : c ≠ sep := h c (List.mem_cons_self c cs)
    have ih2 := ih (fun x hx => h x (List.mem_cons_of_mem c hx))
    simp [splitOnSep, hc, ih2]

theorem digitsOpt_digits (s : List Char) (h1 : s ≠ [])
    (h2 : ∀ c ∈ s, c.isDigit) : digitsOpt s = some (digitsVal s) := by
  have ha : s.all Char.isDigit = true :=
    List.all_eq_true.mpr (fun x hx => by simpa using h2 x hx)
  simp [digitsOpt, h1, ha]

theorem pyInt_digits (s : List Char) (h1 : s ≠ [])
    (h2 : ∀ c ∈ s, c.isDigit) :
    pyInt s = some ((digitsVal s : Nat) : Int) := by
  cases s with
  | nil => exact absurd rfl h1
  | cons c rest =>
    have hc : c.isDigit = true := h2 c (List.mem_cons_self c rest)
    have hm : ¬(c = '-') := by
      intro hh; rw [hh] at hc; exact absurd hc (by decide)
    have hp : ¬(c = '+') := by
      intro hh; rw [hh] at hc; exact absurd hc (by decide)
    simp only [pyInt, hm, hp, if_false]
    rw [digitsOpt_digits _ (by simp) h2]
    rfl

/-- Claim C4: both ad_id encodings parse, disambiguated by the literal "ad"
token: for all numeric campaign/creative identifiers, "{c}_{r}" and
"ad_{c}_{r}" parse to the same (campaign_id, creative_id) pair. -/
theorem C4_adid_two_encodings (s1 s2 : List Char) (h1 : s1 ≠ []) (h2 : s2 ≠ [])
    (hd1 : ∀ c ∈ s1, c.isDigit) (hd2 : ∀ c ∈ s2, c.isDigit) :
    parseAdId (s1 ++ '_' :: s2) =
      (some ((digitsVal s1 : Nat) : Int), some ((digitsVal s2 : Nat) : Int))
    ∧ parseAdId ('a' :: 'd' :: '_' :: (s1 ++ '_' :: s2)) =
        parseAdId (s1 ++ '_' :: s2) := by
  have hu1 : ∀ c ∈ s1, c ≠ '_' := fun c hc hh => by
    have := hd1 c hc; rw [hh] at this; exact absurd this (by decide)
  have hu2 : ∀ c ∈ s2, c ≠ '_' := fun c hc hh => by
    have := hd2 c hc; rw [hh] at this; exact absurd this (by decide)
  have hsp : splitOnSep '_' (s1 ++ '_' :: s2) = [s1, s2] := by
    rw [splitOnSep_append _ _ _ hu1, splitOnSep_no_sep _ _ hu2]
  have hleg : splitOnSep '_' ('a' :: 'd' :: '_' :: (s1 ++ '_' :: s2)) =
      ['a', 'd'] :: [s1, s2] := by
    have he : ('a' :: 'd' :: '_' :: (s1 ++ '_' :: s2)) =
        ['a', 'd'] ++ '_' :: (s1 ++ '_' :: s2) := rfl
    rw [he, splitOnSep_append _ _ _ (by decide), hsp]
  have p1 := pyInt_digits s1 h1 hd1
  have p2 := pyInt_digits s2 h2 hd2
  constructor
  · simp [parseAdId, hsp, p1, p2]
  · simp [parseAdId, hsp, hleg, p1, p2]

/-- Witness for C4 at the spec's example: "5_3" and "ad_5_3" both parse to
campaign 5, creative 3. -/
theorem C4_adid_two_encodings_witness :
    parseAdId "5_3".data = (some 5, some 3)
    ∧ parseAdId "ad_5_3".data = (some 5, some 3) := by
  have h := C4_adid_two_encodings ['5'] ['3'] (by decide) (by decide)
    (by decide) (by decide)
  have e1 : "5_3".data = ['5'] ++ '_' :: ['3'] := by decide
  have e2 : "ad_5_3".data = 'a' :: 'd' :: '_' :: (['5'] ++ '_' :: ['3']) := by
    decide
  refine ⟨?_, ?_⟩
  · rw [e1, h.1]; decide
  · rw [e2, h.2, h.1]; decide

theorem trackEvent_freq_unchanged (st : LedgerState) (rid aid et : String)
    (uid : Option String) (ts : Option Nat) (now date hour : Nat)
    (h : ∀ e, getEventType et.data = some e →
      ¬(e = EventType.IMPRESSION ∧ pyTruthyStr uid)) :
    (trackEvent st rid aid et uid ts now date hour).2.freqDaily = st.freqDaily
    ∧ (trackEvent st rid aid et uid ts now date hour).2.freqHourly =
        st.freqHourly := by
  cases hg : getEventType et.data with
  | none => simp [trackEvent, hg]
  | some e =>
    have he := h e hg
    simp only [trackEvent, hg]
    split
    · constructor <;> simp [updateStats_freqDaily, updateStats_freqHourly]
    · exact ⟨rfl, rfl⟩

/-- Claim C10: the GET pixel endpoint always submits user_id=None, and
frequency counters change only for impressions with a present user; hence
pixel-tracked impressions, and clicks/conversions from any caller, never
change any frequency counter. -/
theorem C10_pixel_frequency (st : LedgerState) (rid aid et : String)
    (uid : Option String) (ts : Option Nat) (now date hour : Nat)
    (t r i : String) :
    trackEventGet st t r i now date hour =
        trackEvent st r i t none (some now) now date hour
    ∧ ((trackEventGet st t r i now date hour).2.freqDaily = st.freqDaily
        ∧ (trackEventGet st t r i now date hour).2.freqHourly = st.freqHourly)
    ∧ (uid = none →
        (trackEvent st rid aid et uid ts now date hour).2.freqDaily =
            st.freqDaily
        ∧ (trackEvent st rid aid et uid ts now date hour).2.freqHourly =
            st.freqHourly)
    ∧ (∀ e, getEventType et.data = some e → e ≠ EventType.IMPRESSION →
        (trackEvent st rid aid et uid ts now date hour).2.freqDaily =
            st.freqDaily
        ∧ (trackEvent st rid aid et uid ts now date hour).2.freqHourly =
            st.freqHourly) := by
  refine ⟨rfl, ?_, ?_, ?_⟩
  · exact trackEvent_freq_unchanged st r i t none (some now) now date hour
      (fun e _ hand => by simp [pyTruthyStr] at hand)
  · intro hu
    subst hu
    exact trackEvent_freq_unchanged st rid aid et none ts now date hour
      (fun e _ hand => by simp [pyTruthyStr] at hand)
  · intro e hg hne
    refine trackEvent_freq_unchanged st rid aid et uid ts now date hour
      (fun e2 hg2 hand => ?_)
    rw [hg] at hg2
    exact hne ((Option.some.inj hg2) ▸ hand.1)

/-- Witness for C10: a pixel impression and a POSTed click on the concrete
ledger leave the daily frequency counters untouched. -/
theorem C10_pixel_frequency_witness :
    (trackEventGet st0 "v" "r" "5_3" 7 1 2).2.freqDaily = st0.freqDaily
    ∧ (trackEvent st0 "r" "5_3" "c" (some "u") none 7 1 2).2.freqDaily =
        st0.freqDaily := by
  refine ⟨(C10_pixel_frequency st0 "r" "5_3" "c" (some "u") none 7 1 2
    "v" "r" "5_3").2.1.1, ?_⟩
  exact ((C10_pixel_frequency st0 "r" "5_3" "c" (some "u") none 7 1 2
    "v" "r" "5_3").2.2.2 EventType.CLICK (by decide) (by decide)).1

/-- Claim C7: `retrieve` returns the paid-candidate bucket when it is
non-empty, otherwise the house-ad bucket when that is non-empty, otherwise the
empty list, and the returned list never has more than `limit` elements. -/
theorem C7_retrieve_fallback (campaigns : List CampaignData) (u : UserContext)
    (slot_id : String) (limit : Nat) (kw : Option String) :
    ((bucketsOf campaigns u slot_id limit kw).1 ≠ [] →
      retrieve campaigns u slot_id limit kw =
        (bucketsOf campaigns u slot_id limit kw).1.take limit)
    ∧ ((bucketsOf campaigns u slot_id limit kw).1 = [] →
        (bucketsOf campaigns u slot_id limit kw).2 ≠ [] →
        retrieve campaigns u slot_id limit kw =
          (bucketsOf campaigns u slot_id limit kw).2.take limit)
    ∧ ((bucketsOf campaigns u slot_id limit kw).1 = [] →
        (bucketsOf campaigns u slot_id limit kw).2 = [] →
        retrieve campaigns u slot_id limit kw = [])
    ∧ (retrieve campaigns u slot_id limit kw).length ≤ limit := by
  by_cases hc : campaigns = []
  · subst hc
    have hb : bucketsOf [] u slot_id limit kw = ([], []) := rfl
    simp [retrieve, hb]
  · refine ⟨?_, ?_, ?_, ?_⟩
    · intro h1
      simp [retrieve, hc, h1]
    · intro h1 h2
      simp [retrieve, hc, h1, h2]
    · intro h1 h2
      simp [retrieve, hc, h1, h2]
    · by_cases h1 : (bucketsOf campaigns u slot_id limit kw).1 = []
      · by_cases h2 : (bucketsOf campaigns u slot_id limit kw).2 = []
        · simp [retrieve, hc, h1, h2]
        · have hr : retrieve campaigns u slot_id limit kw =
              (bucketsOf campaigns u slot_id limit kw).2.take limit := by
            simp [retrieve, hc, h1, h2]
          rw [hr]
          exact List.length_take_le ..
      · have hr : retrieve campaigns u slot_id limit kw =
            (bucketsOf campaigns u slot_id limit kw).1.take limit := by
          simp [retrieve, hc, h1]
        rw [hr]
        exact List.length_take_le ..

/-- Concrete 300x250 creative and CPM campaign snapshot for witnesses. -/
def creat1 : CreativeData :=
  { id := 3, width := some 300, height := some 250 }

/-- Concrete paid campaign snapshot with one creative. -/
def cdata1 : CampaignData :=
  { id := 5, advertiser_id := 1, bid_type := BidType.CPM, bid_amount := 2,
    creatives := [creat1] }

/-- Witness for C7: one paid campaign with one matching creative yields
exactly that candidate. -/
theorem C7_retrieve_fallback_witness :
    retrieve [cdata1] ({} : UserContext) "sidebar-300x250" 10 none =
      [mkCandidate cdata1 creat1] := by
  have h := (C7_retrieve_fallback [cdata1] ({} : UserContext)
    "sidebar-300x250" 10 none).1 (by decide)
  rw [h]
  decide

/-- Claim C8: domain targeting extracts the registrable domain from the page
URL and passes iff it equals or is a subdomain of some target entry; an absent
target set or page URL always passes; the spec's two examples hold. -/
theorem C8_domain_targeting :
    (∀ u, matchDomainTargeting none u = true)
    ∧ (∀ u, matchDomainTargeting (some []) u = true)
    ∧ (∀ ts, matchDomainTargeting ts none = true)
    ∧ (∀ ts, matchDomainTargeting ts (some "") = true)
    ∧ (∀ (ts : List String) (u : String) (d : List Char), ts ≠ [] → u ≠ "" →
        extractDomain u.data = some d → d ≠ [] →
        (matchDomainTargeting (some ts) (some u) = true ↔
          ∃ t ∈ ts, d = normTarget t.data
            ∨ ('.' :: normTarget t.data).isSuffixOf d = true))
    ∧ matchDomainTargeting (some ["example.com"])
        (some "https://blog.example.com/x") = true
    ∧ matchDomainTargeting (some ["example.com"])
        (some "https://notexample.com") = false := by
  refine ⟨?_, ?_, ?_, ?_, ?_, by decide, by decide⟩
  · intro u; rfl
  · intro u; rfl
  · intro ts
    match ts with
    | none => rfl
    | some [] => rfl
    | some (a :: as) => rfl
  · intro ts
    match ts with
    | none => rfl
    | some [] => rfl
    | some (a :: as) => rfl
  · intro ts u d hts hu hex hd
    have hts2 : ts.isEmpty = false := by simpa [List.isEmpty_iff] using hts
    have hd2 : d.isEmpty = false := by simpa [List.isEmpty_iff] using hd
    simp only [matchDomainTargeting, Option.getD_some, hts2,
      Bool.false_eq_true, if_false, hu, hex, hd2, List.any_eq_true,
      Bool.or_eq_true, beq_iff_eq]

/-- Witness for C8: a www-prefixed, mixed-case subdomain page URL matches its
registrable domain entry via the general characterization. -/
theorem C8_domain_targeting_witness :
    matchDomainTargeting (some ["example.com", "other.org"])
      (some "https://www.Shop.Example.com/p?q=1") = true := by
  have h := C8_domain_targeting.2.2.2.2.1 ["example.com", "other.org"]
    "https://www.Shop.Example.com/p?q=1" "example.com".data
    (by decide) (by decide) (by decide) (by decide)
  exact h.mpr ⟨"example.com", by decide, Or.inl (by decide)⟩

/-- Claim C9: the rule matcher is fail-open: an unrecognized rule_type always
matches, and an "age" rule matches whenever the user's age is unknown,
regardless of rule_value. -/
theorem C9_rule_fail_open :
    (∀ (rt : String) (rv : RuleValue) (u : UserContext),
        rt ∉ (["age", "gender", "geo", "device", "os", "interest",
          "app_category"] : List String) →
        matchRule rt rv u = true)
    ∧ (∀ (rv : RuleValue) (u : UserContext), u.age = none →
        matchRule "age" rv u = true) := by
  constructor
  · intro rt rv u h
    simp only [List.mem_cons, List.not_mem_nil, or_false, not_or] at h
    obtain ⟨h1, h2, h3, h4, h5, h6, h7⟩ := h
    simp [matchRule, h1, h2, h3, h4, h5, h6, h7]
  · intro rv u h
    simp [matchRule, h]

/-- Witness for C9: an unknown rule type and an age rule with unknown age both
match, with a restrictive rule_value. -/
theorem C9_rule_fail_open_witness :
    matchRule "frequency_cap" ⟨some 18, some 30, [], [], [], []⟩
      ({} : UserContext) = true
    ∧ matchRule "age" ⟨some 18, some 30, [], [], [], []⟩
      ({} : UserContext) = true := by
  exact ⟨C9_rule_fail_open.1 "frequency_cap" _ _ (by decide),
    C9_rule_fail_open.2 _ _ rfl⟩

/-- Claim C6 counterexample: on a cache miss over an empty campaign table the
rebuilt (empty) snapshot is not stored in the cache at all, contradicting the
claim that every cache miss stores the snapshot with a 300-second expiry. -/
theorem C6_counterexample :
    ¬((getActiveCampaigns none ([] : List DbCampaign)).2 =
      some ((getActiveCampaigns none ([] : List DbCampaign)).1, 300)) := by
  decide

/-- Claim C6 (amended): on a cache miss the lookup queries at most 1000 ACTIVE
campaigns, builds a snapshot containing exactly the ACTIVE campaigns with at
least one ACTIVE creative (carrying their creatives and targeting rules), and
stores it with the fixed 300-second expiry when — and only when — the
snapshot is non-empty. -/
theorem C6_snapshot_on_miss (db : List DbCampaign) :
    (getActiveCampaigns none db).1 = buildSnapshot db
    ∧ (∀ cd ∈ (getActiveCampaigns none db).1,
        ∃ c, c ∈ (db.filter (fun x => x.status == Status.ACTIVE)).take 1000 ∧
          c.status = Status.ACTIVE ∧ cd = toCampaignData c ∧
          cd.creatives ≠ [])
    ∧ (∀ c ∈ (db.filter (fun x => x.status == Status.ACTIVE)).take 1000,
        (toCampaignData c).creatives ≠ [] →
        toCampaignData c ∈ (getActiveCampaigns none db).1)
    ∧ (buildSnapshot db ≠ [] →
        (getActiveCampaigns none db).2 = some (buildSnapshot db, cacheTtl))
    ∧ (buildSnapshot db = [] → (getActiveCampaigns none db).2 = none) := by
  have hfst : (getActiveCampaigns none db).1 = buildSnapshot db := by
    simp only [getActiveCampaigns]
    split <;> rfl
  refine ⟨hfst, ?_, ?_, ?_, ?_⟩
  · intro cd hcd
    rw [hfst] at hcd
    simp only [buildSnapshot, List.mem_filterMap, List.mem_filter] at hcd
    obtain ⟨c, ⟨hcmem, hact⟩, heq⟩ := hcd
    by_cases hne : (toCampaignData c).creatives = []
    · rw [if_neg (fun hcon => hcon hne)] at heq
      exact absurd heq (by simp)
    · rw [if_pos hne] at heq
      have hceq := Option.some.inj heq
      subst hceq
      refine ⟨c, hcmem, ?_, rfl, hne⟩
      simpa [DbCampaign.is_active] using hact
  · intro c hcmem hne
    rw [hfst]
    simp only [buildSnapshot, List.mem_filterMap, List.mem_filter]
    refine ⟨c, ⟨hcmem, ?_⟩, ?_⟩
    · have hm := List.mem_filter.mp (List.take_subset _ _ hcmem)
      simpa [DbCampaign.is_active] using hm.2
    · rw [if_pos hne]
  · intro h
    simp [getActiveCampaigns, h]
  · intro h
    simp [getActiveCampaigns, h]

/-- Concrete ACTIVE creative row for the C6 witness. -/
def dbcr1 : DbCreative :=
  { id := 3, status := Status.ACTIVE, width := some 300, height := some 250 }

/-- Concrete ACTIVE campaign row with one ACTIVE creative. -/
def dbc1 : DbCampaign :=
  { id := 5, advertiser_id := 1, status := Status.ACTIVE,
    bid_type := BidType.CPM, bid_amount := 2, creatives := [dbcr1] }

/-- Witness for C6 (amended): a single active campaign appears in the rebuilt
snapshot and the non-empty snapshot is cached with the 300-second TTL. -/
theorem C6_snapshot_on_miss_witness :
    toCampaignData dbc1 ∈ (getActiveCampaigns none [dbc1]).1
    ∧ (getActiveCampaigns none [dbc1]).2 =
        some (buildSnapshot [dbc1], cacheTtl) := by
  exact ⟨(C6_snapshot_on_miss [dbc1]).2.2.1 dbc1 (by decide) (by decide),
    (C6_snapshot_on_miss [dbc1]).2.2.2.1 (by decide)⟩

end LiteAds
